import Mathlib

/-!
Verification development for the tagging layer in `src/tagger.go` (package
`ncmdump`).

Shallow-embedding conventions:
- Go `error` values are modelled as `Option String` (or `Except String _` for
  functions written in the `value, err` style); `none` / `.ok` is the nil error.
- Go byte slices (`[]byte`) and strings are both byte sequences and freely
  interconvertible (`[]byte(s)`); we model both as Lean `String`.
- The third-party codec libraries (`bogem/id3v2`, `go-flac`, `flacvorbis`,
  `flacpicture`) are external collaborators not part of this repository; the
  operations of theirs that `tagger.go` calls are modelled from the spec's
  collaborator contract (each such definition is marked "Modelled from the
  spec:").  File I/O outcomes are passed in as explicit inputs.
-/

namespace Ncmdump

abbrev GoError := String

def audioFormatMp3 : String := "mp3"

def audioFormatFlac : String := "flac"

/-- Modelled from the spec: Go `strings.ToLower` — lowercases the string
character by character (the format names compared against are ASCII). -/
def strToLower (s : String) : String := ⟨s.data.map Char.toLower⟩

/-- Modelled from the spec: an id3v2 attached-picture frame, the fields
`tagger.go` populates (encoding, MIME type, picture type, description, picture
payload bytes). -/
structure PictureFrame where
  encoding : String
  mimeType : String
  pictureType : String
  description : String
  picture : String
deriving DecidableEq, Repr

/-- Modelled from the spec: an id3v2 comment frame (legacy single-byte
encoding, language code, description, text). -/
structure CommentFrame where
  encoding : String
  language : String
  description : String
  text : String
deriving DecidableEq, Repr

/-- Modelled from the spec: the in-memory state of a parsed frame-based
(id3v2) tag: title and album text frames (the empty string meaning "absent or
empty", as `tag.Title()` returns `""` when no frame exists), the ordered
artist frames, comment frames and attached-picture frames. -/
structure Id3Tag where
  title : String
  album : String
  artistFrames : List String
  commentFrames : List CommentFrame
  pictureFrames : List PictureFrame
deriving DecidableEq, Repr

/-- A frame as returned by the id3v2 `GetFrames` query. -/
inductive Frame
  | text (s : String)
  | comment (c : CommentFrame)
  | picture (p : PictureFrame)
deriving DecidableEq, Repr

/-- Modelled from the spec: `tag.Title()` returns the title frame text, `""`
when absent. -/
def Id3Tag.Title (t : Id3Tag) : String := t.title

/-- Modelled from the spec: `tag.Album()` returns the album frame text, `""`
when absent. -/
def Id3Tag.Album (t : Id3Tag) : String := t.album

/-- Modelled from the spec: `tag.SetTitle` stores the title frame text. -/
def Id3Tag.SetTitle (t : Id3Tag) (s : String) : Id3Tag := { t with title := s }

/-- Modelled from the spec: `tag.SetAlbum` stores the album frame text. -/
def Id3Tag.SetAlbum (t : Id3Tag) (s : String) : Id3Tag := { t with album := s }

/-- Modelled from the spec: `tag.CommonID` maps a human-readable frame name to
its id3v2 frame identifier. -/
def Id3Tag.CommonID (_ : Id3Tag) (name : String) : String :=
  if name == "Artist" then "TPE1"
  else if name == "Comments" then "COMM"
  else if name == "Attached picture" then "APIC"
  else if name == "Title" then "TIT2"
  else if name == "Album" then "TALB"
  else name

/-- Modelled from the spec: `tag.GetFrames(id)` returns all frames stored under
a frame identifier (empty list when the frame is absent). -/
def Id3Tag.GetFrames (t : Id3Tag) (id : String) : List Frame :=
  if id == "TPE1" then t.artistFrames.map Frame.text
  else if id == "COMM" then t.commentFrames.map Frame.comment
  else if id == "APIC" then t.pictureFrames.map Frame.picture
  else if id == "TIT2" then (if t.title == "" then [] else [Frame.text t.title])
  else if id == "TALB" then (if t.album == "" then [] else [Frame.text t.album])
  else []

/-- Modelled from the spec: `tag.SetArtist` adds one artist frame; the tag
model keeps multiple artist frames in order (spec section 6: "multiple artist
frames"; `tagger.go` comment: "multiple artist support"). -/
def Id3Tag.SetArtist (t : Id3Tag) (artist : String) : Id3Tag :=
  { t with artistFrames := t.artistFrames ++ [artist] }

/-- Modelled from the spec: `tag.AddCommentFrame` appends a comment frame. -/
def Id3Tag.AddCommentFrame (t : Id3Tag) (c : CommentFrame) : Id3Tag :=
  { t with commentFrames := t.commentFrames ++ [c] }

/-- Modelled from the spec: `tag.AddAttachedPicture` appends a picture frame. -/
def Id3Tag.AddAttachedPicture (t : Id3Tag) (p : PictureFrame) : Id3Tag :=
  { t with pictureFrames := t.pictureFrames ++ [p] }

/-- `Mp3Tagger.SetCover` from `src/tagger.go`: always appends a front-cover
attached picture with the given MIME and payload, returns nil error. -/
def Mp3Tagger.SetCover (m : Id3Tag) (buf mime : String) : Option GoError × Id3Tag :=
  (none, m.AddAttachedPicture
    { encoding := "ISO-8859-1", mimeType := mime, pictureType := "FrontCover",
      description := "Front cover", picture := buf })

/-- `Mp3Tagger.SetCoverUrl` from `src/tagger.go`: appends a front-cover
attached picture whose MIME is the sentinel `"-->"` and whose payload is the
URL string's bytes, returns nil error. -/
def Mp3Tagger.SetCoverUrl (m : Id3Tag) (coverUrl : String) : Option GoError × Id3Tag :=
  (none, m.AddAttachedPicture
    { encoding := "ISO-8859-1", mimeType := "-->", pictureType := "FrontCover",
      description := "Front cover", picture := coverUrl })

/-- `Mp3Tagger.SetTitle` from `src/tagger.go`: sets the title only when
`tag.Title()` is `""`; always returns nil error. -/
def Mp3Tagger.SetTitle (m : Id3Tag) (title : String) : Option GoError × Id3Tag :=
  if m.Title == "" then (none, m.SetTitle title) else (none, m)

/-- `Mp3Tagger.SetAlbum` from `src/tagger.go`: sets the album only when
`tag.Album()` is `""`; always returns nil error. -/
def Mp3Tagger.SetAlbum (m : Id3Tag) (album : String) : Option GoError × Id3Tag :=
  if m.Album == "" then (none, m.SetAlbum album) else (none, m)

/-- `Mp3Tagger.SetArtist` from `src/tagger.go`: when zero artist frames exist,
adds one artist frame per list element in order; always returns nil error. -/
def Mp3Tagger.SetArtist (m : Id3Tag) (artists : List String) : Option GoError × Id3Tag :=
  if (m.GetFrames (m.CommonID "Artist")).length == 0 then
    (none, artists.foldl Id3Tag.SetArtist m)
  else (none, m)

/-- `Mp3Tagger.SetComment` from `src/tagger.go`: when zero comment frames
exist, appends a comment frame with encoding ISO, language "XXX", empty
description; always returns nil error. -/
def Mp3Tagger.SetComment (m : Id3Tag) (comment : String) : Option GoError × Id3Tag :=
  if (m.GetFrames (m.CommonID "Comments")).length == 0 then
    (none, m.AddCommentFrame
      { encoding := "ISO-8859-1", language := "XXX", description := "", text := comment })
  else (none, m)

/-- The outcomes of the two I/O steps inside `Mp3Tagger.Save`
(`tag.Save()` serializes the tag block, `tag.Close()` releases the file
handle); each can independently fail. -/
structure Mp3Finalize where
  saveErr : Option GoError
  closeErr : Option GoError
deriving DecidableEq, Repr

/-- What a run of `Mp3Tagger.Save` did: the error it returned and which of the
two steps it attempted. -/
structure Mp3SaveOutcome where
  returned : Option GoError
  saveAttempted : Bool
  closeAttempted : Bool
deriving DecidableEq, Repr

/-- `Mp3Tagger.Save` from `src/tagger.go`:
`err := m.tag.Save(); err = m.tag.Close(); return err` — both steps are run
unconditionally, the `err` from `tag.Save()` is overwritten (unchecked) by the
`tag.Close()` result, which is what is returned. -/
def Mp3Tagger.Save (t : Mp3Finalize) : Mp3SaveOutcome :=
  let err := t.saveErr
  let err := t.closeErr
  { returned := err, saveAttempted := true, closeAttempted := true }

def FIELD_TITLE : String := "TITLE"

def FIELD_ALBUM : String := "ALBUM"

def FIELD_ARTIST : String := "ARTIST"

/-- Modelled from the spec: a Vorbis comment block as a mutable comment map —
an ordered list of key=value entries (well-formed, so the key query never
fails structurally). -/
structure MetaDataBlockVorbisComment where
  comments : List (String × String)
deriving DecidableEq, Repr

/-- All values stored under a key, in order. -/
def MetaDataBlockVorbisComment.valuesOf (c : MetaDataBlockVorbisComment)
    (key : String) : List String :=
  (c.comments.filter (fun p => p.1 == key)).map Prod.snd

/-- Modelled from the spec: `cmts.Get(key)` returns every value stored under
the key (empty list when absent); on a well-formed comment map the structural
failure branch never fires, so the result is always `.ok`. -/
def MetaDataBlockVorbisComment.Get (c : MetaDataBlockVorbisComment)
    (key : String) : Except GoError (List String) :=
  Except.ok (c.valuesOf key)

/-- Modelled from the spec: `cmts.Add(key, val)` appends one key=value entry
(the policy layer only passes the valid field-name constants, so the
invalid-field-name failure never fires). -/
def MetaDataBlockVorbisComment.Add (c : MetaDataBlockVorbisComment)
    (key val : String) : MetaDataBlockVorbisComment :=
  ⟨c.comments ++ [(key, val)]⟩

/-- Modelled from the spec: `flacvorbis.New()` — an empty comment map. -/
def flacvorbisNew : MetaDataBlockVorbisComment := ⟨[]⟩

/-- Modelled from the spec: a FLAC metadata block, holding either a parsed
Vorbis comment payload, a picture payload (type, description, MIME, image
data), or some other typed payload left opaque. -/
inductive MetaDataBlock
  | vorbisComment (comments : List (String × String))
  | picture (pictureType : String) (description : String) (mime : String) (imageData : String)
  | other (typ : Nat) (payload : String)
deriving DecidableEq, Repr

def MetaDataBlock.isVorbisComment : MetaDataBlock → Bool
  | MetaDataBlock.vorbisComment _ => true
  | _ => false

def MetaDataBlock.isPicture : MetaDataBlock → Bool
  | MetaDataBlock.picture _ _ _ _ => true
  | _ => false

/-- Modelled from the spec: `cmts.Marshal()` serializes the comment map into a
fresh Vorbis-comment metadata block carrying the same entries. -/
def MetaDataBlockVorbisComment.Marshal (c : MetaDataBlockVorbisComment) : MetaDataBlock :=
  MetaDataBlock.vorbisComment c.comments

/-- Modelled from the spec: a parsed FLAC file — its metadata block chain. -/
structure FlacFile where
  meta : List MetaDataBlock
deriving DecidableEq, Repr

def FlacFile.commentBlockCount (f : FlacFile) : Nat :=
  (f.meta.filter MetaDataBlock.isVorbisComment).length

def FlacFile.pictureBlockCount (f : FlacFile) : Nat :=
  (f.meta.filter MetaDataBlock.isPicture).length

/-- The `FlacTagger` session state from `src/tagger.go`: the path, the parsed
block chain (`file.Meta`) and the mutable comment map (`cmts`). -/
structure FlacTagger where
  path : String
  file : FlacFile
  cmts : MetaDataBlockVorbisComment
deriving DecidableEq, Repr

/-- `NewFlacTagger` from `src/tagger.go`, applied to an already-parsed block
chain (`flac.ParseFile` is the external codec): scans for the first
Vorbis-comment block; if found, parses it into the comment map (well-formed
blocks always parse); otherwise starts from `flacvorbis.New()`.  The block
chain itself is kept as parsed. -/
def NewFlacTagger (path : String) (f : FlacFile) : Except GoError FlacTagger :=
  let cmts : MetaDataBlockVorbisComment :=
    match f.meta.find? MetaDataBlock.isVorbisComment with
    | some (MetaDataBlock.vorbisComment cs) => ⟨cs⟩
    | _ => flacvorbisNew
  Except.ok { path := path, file := f, cmts := cmts }

/-- Modelled from the spec: `flacpicture.NewFromImageData` builds a front-cover
picture block from image bytes and a MIME type; it may fail on malformed image
bytes/MIME (PictureEncodeError) — success of the decode is abstracted by the
`decodeOk` oracle. -/
def NewFromImageData (decodeOk : String → String → Bool)
    (pictureType description buf mime : String) : Except GoError MetaDataBlock :=
  if decodeOk buf mime then
    Except.ok (MetaDataBlock.picture pictureType description mime buf)
  else Except.error "PictureEncodeError"

/-- `FlacTagger.SetCover` from `src/tagger.go`: builds a front-cover picture
block via `flacpicture.NewFromImageData`; on success appends its marshalled
block to the chain; returns the codec's error either way. -/
def FlacTagger.SetCover (decodeOk : String → String → Bool) (f : FlacTagger)
    (buf mime : String) : Except GoError FlacTagger :=
  match NewFromImageData decodeOk "FrontCover" "Front cover" buf mime with
  | Except.ok picturemeta => Except.ok { f with file := ⟨f.file.meta ++ [picturemeta]⟩ }
  | Except.error e => Except.error e

/-- `FlacTagger.SetCoverUrl` from `src/tagger.go`: directly constructs a
front-cover picture block with MIME `"-->"` and the URL string's bytes as
image data, appends its marshalled block to the chain, returns nil error. -/
def FlacTagger.SetCoverUrl (f : FlacTagger) (coverUrl : String) : Except GoError FlacTagger :=
  Except.ok { f with file :=
    ⟨f.file.meta ++ [MetaDataBlock.picture "FrontCover" "Front cover" "-->" coverUrl]⟩ }

/-- `FlacTagger.SetTitle` from `src/tagger.go`: queries TITLE; propagates a
query failure; when zero values exist, adds the value; otherwise no-op. -/
def FlacTagger.SetTitle (f : FlacTagger) (title : String) : Except GoError FlacTagger :=
  match f.cmts.Get FIELD_TITLE with
  | Except.error e => Except.error e
  | Except.ok titles =>
    if titles.length == 0 then
      Except.ok { f with cmts := f.cmts.Add FIELD_TITLE title }
    else Except.ok f

/-- `FlacTagger.SetAlbum` from `src/tagger.go`: same shape as `SetTitle` for
the ALBUM key. -/
def FlacTagger.SetAlbum (f : FlacTagger) (album : String) : Except GoError FlacTagger :=
  match f.cmts.Get FIELD_ALBUM with
  | Except.error e => Except.error e
  | Except.ok albums =>
    if albums.length == 0 then
      Except.ok { f with cmts := f.cmts.Add FIELD_ALBUM album }
    else Except.ok f

/-- `FlacTagger.SetArtist` from `src/tagger.go`: queries ARTIST; propagates a
query failure; when zero values exist, adds one ARTIST entry per list element
in order; otherwise no-op. -/
def FlacTagger.SetArtist (f : FlacTagger) (artists : List String) : Except GoError FlacTagger :=
  match f.cmts.Get FIELD_ARTIST with
  | Except.error e => Except.error e
  | Except.ok theArtists =>
    if theArtists.length == 0 then
      let added := artists.foldl (fun acc artist => acc.Add FIELD_ARTIST artist) f.cmts
      Except.ok { f with cmts := added }
    else Except.ok f

/-- `FlacTagger.SetComment` from `src/tagger.go`: a deliberate no-op, always
returns nil error and leaves the session untouched. -/
def FlacTagger.SetComment (f : FlacTagger) (_ : String) : Except GoError FlacTagger :=
  Except.ok f

/-- `FlacTagger.Save` from `src/tagger.go`: marshals the comment map into a
fresh comment block, appends it to the chain, and rewrites the whole file —
the result is the block chain persisted to disk. -/
def FlacTagger.Save (f : FlacTagger) : FlacFile :=
  ⟨f.file.meta ++ [f.cmts.Marshal]⟩

/-- The values stored under TITLE in the session's comment map. -/
def FlacTagger.titleValues (f : FlacTagger) : List String :=
  f.cmts.valuesOf FIELD_TITLE

/-- The values stored under ALBUM in the session's comment map. -/
def FlacTagger.albumValues (f : FlacTagger) : List String :=
  f.cmts.valuesOf FIELD_ALBUM

/-- The values stored under ARTIST in the session's comment map. -/
def FlacTagger.artistValues (f : FlacTagger) : List String :=
  f.cmts.valuesOf FIELD_ARTIST

/-- The result of the format dispatcher: which encoder was constructed. -/
inductive TaggerKind
  | mp3 (t : Id3Tag)
  | flacEnc (t : FlacTagger)
deriving DecidableEq, Repr

/-- `NewTagger` from `src/tagger.go`: switches on `strings.ToLower(format)`;
`"mp3"` runs the MP3 constructor, `"flac"` the FLAC constructor, anything else
yields the formatted unsupported-format error.  The two constructors (which
perform the file I/O) are passed in as oracles so that not invoking them is
visible in the model. -/
def NewTagger (openMp3 : String → Except GoError Id3Tag)
    (openFlac : String → Except GoError FlacTagger)
    (input format : String) : Except GoError TaggerKind :=
  if strToLower format == audioFormatMp3 then
    (openMp3 input).map TaggerKind.mp3
  else if strToLower format == audioFormatFlac then
    (openFlac input).map TaggerKind.flacEnc
  else
    Except.error ("format: " ++ format ++ " is not supportted")

/-! ### Helper lemmas -/

/-- Folding `Id3Tag.SetArtist` over a list appends the whole list to the artist
frames and changes nothing else. -/
theorem Id3Tag.foldl_setArtist (m : Id3Tag) (artists : List String) :
    artists.foldl Id3Tag.SetArtist m = { m with artistFrames := m.artistFrames ++ artists } := by
  induction artists generalizing m with
  | nil => simp
  | cons a l ih =>
    simp only [List.foldl_cons, ih, Id3Tag.SetArtist, List.append_assoc, List.cons_append,
      List.nil_append]

/-- Adding an entry for a key appends its value to the values of that key. -/
theorem MetaDataBlockVorbisComment.valuesOf_add (c : MetaDataBlockVorbisComment)
    (key v : String) : (c.Add key v).valuesOf key = c.valuesOf key ++ [v] := by
  simp [MetaDataBlockVorbisComment.Add, MetaDataBlockVorbisComment.valuesOf]

/-- Folding `Add` for one key over a list of values appends all of them to the
values of that key, in order. -/
theorem MetaDataBlockVorbisComment.foldl_add_valuesOf (c : MetaDataBlockVorbisComment)
    (key : String) (vals : List String) :
    ((vals.foldl (fun acc v => acc.Add key v) c).valuesOf key) = c.valuesOf key ++ vals := by
  induction vals generalizing c with
  | nil => simp
  | cons a l ih =>
    simp only [List.foldl_cons, ih, MetaDataBlockVorbisComment.valuesOf_add, List.append_assoc,
      List.cons_append, List.nil_append]

/-- Folding `Add` leaves the path and file of nothing — on the comment list it
is an append of the keyed pairs. -/
theorem MetaDataBlockVorbisComment.foldl_add_comments (c : MetaDataBlockVorbisComment)
    (key : String) (vals : List String) :
    (vals.foldl (fun acc v => acc.Add key v) c).comments
      = c.comments ++ vals.map (fun v => (key, v)) := by
  induction vals generalizing c with
  | nil => simp
  | cons a l ih =>
    rw [List.foldl_cons, ih]
    simp [MetaDataBlockVorbisComment.Add]

/-- A successful FLAC `SetCover` call appends exactly one front-cover picture
block with the given MIME and payload. -/
theorem FlacTagger.setCover_ok (decodeOk : String → String → Bool) (f : FlacTagger)
    (buf mime : String) (f2 : FlacTagger)
    (h : FlacTagger.SetCover decodeOk f buf mime = Except.ok f2) :
    f2 = { f with file :=
      ⟨f.file.meta ++ [MetaDataBlock.picture "FrontCover" "Front cover" mime buf]⟩ } := by
  by_cases hd : decodeOk buf mime
  · simp only [FlacTagger.SetCover, NewFromImageData, hd, if_true, Except.ok.injEq] at h
    exact h.symm
  · simp only [FlacTagger.SetCover, NewFromImageData, hd, if_false, Bool.false_eq_true,
      reduceCtorEq] at h

/-! ### Claim theorems -/

/-- Claim C1: fill-if-absent merge for Title and Album on both encoders — when
a non-empty value for the field already exists in the loaded tag data, the set
call returns success and leaves the session state (hence the stored value)
unchanged; in particular, on a file whose existing title is "Original",
`SetTitle "New"` leaves the title that gets persisted equal to "Original". -/
theorem c1_fill_if_absent :
    (∀ (m : Id3Tag) (x : String), m.title ≠ "" → Mp3Tagger.SetTitle m x = (none, m)) ∧
    (∀ (m : Id3Tag) (x : String), m.album ≠ "" → Mp3Tagger.SetAlbum m x = (none, m)) ∧
    (∀ (f : FlacTagger) (x : String), (∃ v ∈ f.titleValues, v ≠ "") →
      FlacTagger.SetTitle f x = Except.ok f) ∧
    (∀ (f : FlacTagger) (x : String), (∃ v ∈ f.albumValues, v ≠ "") →
      FlacTagger.SetAlbum f x = Except.ok f) ∧
    (∀ (m : Id3Tag), m.title = "Original" →
      ((Mp3Tagger.SetTitle m "New").2).title = "Original") ∧
    (∀ (f : FlacTagger), f.titleValues = ["Original"] →
      ∃ f2, FlacTagger.SetTitle f "New" = Except.ok f2 ∧ f2.titleValues = ["Original"]) := by
  refine ⟨?_, ?_, ?_, ?_, ?_, ?_⟩
  · intro m x h
    simp [Mp3Tagger.SetTitle, Id3Tag.Title, h]
  · intro m x h
    simp [Mp3Tagger.SetAlbum, Id3Tag.Album, h]
  · intro f x hx
    obtain ⟨v, hv, -⟩ := hx
    have hne : f.cmts.valuesOf FIELD_TITLE ≠ [] :=
      List.ne_nil_of_mem (by simpa [FlacTagger.titleValues] using hv)
    simp [FlacTagger.SetTitle, MetaDataBlockVorbisComment.Get, List.length_eq_zero, hne]
  · intro f x hx
    obtain ⟨v, hv, -⟩ := hx
    have hne : f.cmts.valuesOf FIELD_ALBUM ≠ [] :=
      List.ne_nil_of_mem (by simpa [FlacTagger.albumValues] using hv)
    simp [FlacTagger.SetAlbum, MetaDataBlockVorbisComment.Get, List.length_eq_zero, hne]
  · intro m h
    simp [Mp3Tagger.SetTitle, Id3Tag.Title, h]
  · intro f h
    have hv : f.cmts.valuesOf FIELD_TITLE = ["Original"] := h
    refine ⟨f, ?_, h⟩
    simp [FlacTagger.SetTitle, MetaDataBlockVorbisComment.Get, hv]

/-- Witness for C1 at concrete sessions: an MP3 tag with existing title
"Original" and album "Alb", and a FLAC session whose comment map holds
TITLE=Original and ALBUM=Alb. -/
theorem c1_fill_if_absent_witness :
    Mp3Tagger.SetTitle ⟨"Original", "Alb", [], [], []⟩ "New"
      = (none, ⟨"Original", "Alb", [], [], []⟩) ∧
    Mp3Tagger.SetAlbum ⟨"Original", "Alb", [], [], []⟩ "NewAlb"
      = (none, ⟨"Original", "Alb", [], [], []⟩) ∧
    FlacTagger.SetTitle ⟨"p", ⟨[]⟩, ⟨[("TITLE", "Original"), ("ALBUM", "Alb")]⟩⟩ "New"
      = Except.ok ⟨"p", ⟨[]⟩, ⟨[("TITLE", "Original"), ("ALBUM", "Alb")]⟩⟩ ∧
    FlacTagger.SetAlbum ⟨"p", ⟨[]⟩, ⟨[("TITLE", "Original"), ("ALBUM", "Alb")]⟩⟩ "NewAlb"
      = Except.ok ⟨"p", ⟨[]⟩, ⟨[("TITLE", "Original"), ("ALBUM", "Alb")]⟩⟩ :=
  ⟨c1_fill_if_absent.1 _ "New" (by decide),
   c1_fill_if_absent.2.1 _ "NewAlb" (by decide),
   c1_fill_if_absent.2.2.1 _ "New" ⟨"Original", by decide, by decide⟩,
   c1_fill_if_absent.2.2.2.1 _ "NewAlb" ⟨"Alb", by decide, by decide⟩⟩

/-- Claim C2 (code-bug evidence): `Mp3Tagger.Save` always attempts both the
serialize step and the handle-release step, but the error it returns is
always the release (`Close`) result — the serialize error is overwritten
unchecked and dropped, so a serialize failure with a clean close is reported
as success, contrary to the documented "surface the first failure"
discipline. -/
theorem c2_save_drops_serialize_error :
    Mp3Tagger.Save { saveErr := some "serialize failed", closeErr := none }
      = { returned := none, saveAttempted := true, closeAttempted := true } ∧
    (∀ t : Mp3Finalize, Mp3Tagger.Save t
      = { returned := t.closeErr, saveAttempted := true, closeAttempted := true }) :=
  ⟨rfl, fun _ => rfl⟩

/-- Claim C3: artist ordering — on a session with zero artist entries, set
artist stores one entry per list element, preserving input order, on both
encoders. -/
theorem c3_artist_order :
    (∀ (m : Id3Tag) (artists : List String), m.artistFrames = [] →
      Mp3Tagger.SetArtist m artists = (none, { m with artistFrames := artists })) ∧
    (∀ (f : FlacTagger) (artists : List String), f.artistValues = [] →
      ∃ f2, FlacTagger.SetArtist f artists = Except.ok f2 ∧
        f2.artistValues = artists ∧ f2.file = f.file ∧ f2.path = f.path) := by
  constructor
  · intro m artists h
    simp [Mp3Tagger.SetArtist, Id3Tag.CommonID, Id3Tag.GetFrames, h, Id3Tag.foldl_setArtist]
  · intro f artists h
    have hv : f.cmts.valuesOf FIELD_ARTIST = [] := h
    refine ⟨{ f with cmts := artists.foldl (fun acc a => acc.Add FIELD_ARTIST a) f.cmts },
      ?_, ?_, rfl, rfl⟩
    · simp [FlacTagger.SetArtist, MetaDataBlockVorbisComment.Get, hv]
    · show (artists.foldl (fun acc a => acc.Add FIELD_ARTIST a) f.cmts).valuesOf FIELD_ARTIST
        = artists
      rw [MetaDataBlockVorbisComment.foldl_add_valuesOf, hv, List.nil_append]

/-- Witness for C3 at ["A", "B", "C"] on an empty-artist MP3 tag and an
empty-comment-map FLAC session. -/
theorem c3_artist_order_witness :
    Mp3Tagger.SetArtist ⟨"t", "a", [], [], []⟩ ["A", "B", "C"]
      = (none, ⟨"t", "a", ["A", "B", "C"], [], []⟩) ∧
    ∃ f2, FlacTagger.SetArtist ⟨"p", ⟨[]⟩, ⟨[]⟩⟩ ["A", "B", "C"] = Except.ok f2 ∧
      f2.artistValues = ["A", "B", "C"] ∧ f2.file = FlacFile.mk [] ∧ f2.path = "p" :=
  ⟨c3_artist_order.1 ⟨"t", "a", [], [], []⟩ ["A", "B", "C"] rfl,
   c3_artist_order.2 ⟨"p", ⟨[]⟩, ⟨[]⟩⟩ ["A", "B", "C"] (by decide)⟩

/-- Claim C4: cover URL sentinel — for every URL string and on both encoders,
the set-cover-by-URL call succeeds and appends a front-cover picture entry
whose MIME type is the literal `"-->"` and whose payload bytes are the URL
string itself; the entry survives FLAC finalize. -/
theorem c4_cover_url_sentinel :
    (∀ (m : Id3Tag) (url : String),
      Mp3Tagger.SetCoverUrl m url = (none, { m with pictureFrames := m.pictureFrames ++
        [{ encoding := "ISO-8859-1", mimeType := "-->", pictureType := "FrontCover",
           description := "Front cover", picture := url }] })) ∧
    (∀ (f : FlacTagger) (url : String),
      FlacTagger.SetCoverUrl f url = Except.ok { f with file :=
        ⟨f.file.meta ++ [MetaDataBlock.picture "FrontCover" "Front cover" "-->" url]⟩ }) ∧
    (∀ (f f2 : FlacTagger) (url : String), FlacTagger.SetCoverUrl f url = Except.ok f2 →
      MetaDataBlock.picture "FrontCover" "Front cover" "-->" url ∈ (FlacTagger.Save f2).meta) := by
  refine ⟨fun m url => rfl, fun f url => rfl, ?_⟩
  intro f f2 url h
  simp only [FlacTagger.SetCoverUrl, Except.ok.injEq] at h
  rw [← h]
  simp [FlacTagger.Save]

/-- Witness for C4: the URL "https://x/y.jpg" on a concrete FLAC session,
persisted through finalize. -/
theorem c4_cover_url_sentinel_witness :
    MetaDataBlock.picture "FrontCover" "Front cover" "-->" "https://x/y.jpg"
      ∈ (FlacTagger.Save ⟨"p", ⟨[MetaDataBlock.picture "FrontCover" "Front cover" "-->"
          "https://x/y.jpg"]⟩, ⟨[]⟩⟩).meta :=
  c4_cover_url_sentinel.2.2 ⟨"p", ⟨[]⟩, ⟨[]⟩⟩ _ "https://x/y.jpg" rfl

/-- Claim C5: format dispatch — the dispatcher lowercases the format name, any
casing of "mp3" runs the MP3 constructor and any casing of "flac" the FLAC
constructor; every other name yields the unsupported-format error carrying the
offending name, and the result is then independent of the constructors (no
file I/O is performed). -/
theorem c5_dispatch :
    (∀ (o1 : String → Except GoError Id3Tag) (o2 : String → Except GoError FlacTagger)
       (input format : String), strToLower format = "mp3" →
       NewTagger o1 o2 input format = (o1 input).map TaggerKind.mp3) ∧
    (∀ (o1 : String → Except GoError Id3Tag) (o2 : String → Except GoError FlacTagger)
       (input format : String), strToLower format = "flac" →
       NewTagger o1 o2 input format = (o2 input).map TaggerKind.flacEnc) ∧
    (∀ (o1 oa : String → Except GoError Id3Tag) (o2 ob : String → Except GoError FlacTagger)
       (input inputB format : String), strToLower format ≠ "mp3" → strToLower format ≠ "flac" →
       NewTagger o1 o2 input format = Except.error ("format: " ++ format ++ " is not supportted") ∧
       NewTagger o1 o2 input format = NewTagger oa ob inputB format) := by
  refine ⟨?_, ?_, ?_⟩
  · intro o1 o2 input format h
    simp [NewTagger, audioFormatMp3, h]
  · intro o1 o2 input format h
    simp [NewTagger, audioFormatMp3, audioFormatFlac, h]
  · intro o1 oa o2 ob input inputB format h1 h2
    constructor
    · simp [NewTagger, audioFormatMp3, audioFormatFlac, h1, h2]
    · simp [NewTagger, audioFormatMp3, audioFormatFlac, h1, h2]

/-- Witness for C5: mixed-case "MP3" and "FLaC" dispatch to the matching
constructors, and "ogg" fails with the unsupported-format message carrying
"ogg", independently of the constructor oracles. -/
theorem c5_dispatch_witness :
    NewTagger (fun _ => Except.ok ⟨"", "", [], [], []⟩)
        (fun _ => Except.ok ⟨"", ⟨[]⟩, ⟨[]⟩⟩) "song" "MP3"
      = Except.ok (TaggerKind.mp3 ⟨"", "", [], [], []⟩) ∧
    NewTagger (fun _ => Except.ok ⟨"", "", [], [], []⟩)
        (fun _ => Except.ok ⟨"", ⟨[]⟩, ⟨[]⟩⟩) "song" "FLaC"
      = Except.ok (TaggerKind.flacEnc ⟨"", ⟨[]⟩, ⟨[]⟩⟩) ∧
    NewTagger (fun _ => Except.ok ⟨"", "", [], [], []⟩)
        (fun _ => Except.ok ⟨"", ⟨[]⟩, ⟨[]⟩⟩) "song" "ogg"
      = Except.error "format: ogg is not supportted" ∧
    NewTagger (fun _ => Except.ok ⟨"", "", [], [], []⟩)
        (fun _ => Except.ok ⟨"", ⟨[]⟩, ⟨[]⟩⟩) "song" "ogg"
      = NewTagger (fun _ => Except.error "io fail") (fun _ => Except.error "io fail") "other" "ogg" :=
  ⟨(c5_dispatch.1 _ _ "song" "MP3" (by decide)).trans rfl,
   (c5_dispatch.2.1 _ _ "song" "FLaC" (by decide)).trans rfl,
   (c5_dispatch.2.2 _ (fun _ => Except.error "io fail") _ (fun _ => Except.error "io fail")
      "song" "other" "ogg" (by decide) (by decide)).1,
   (c5_dispatch.2.2 _ (fun _ => Except.error "io fail") _ (fun _ => Except.error "io fail")
      "song" "other" "ogg" (by decide) (by decide)).2⟩

/-- Claim C6: FLAC finalize serializes the session's comment map into a fresh
comment block appended to the block chain, keeping every previously existing
block (construction also keeps the parsed chain); so a file that already had a
comment block ends up with at least two. -/
theorem c6_flac_save_appends_comment :
    (∀ f : FlacTagger,
      FlacTagger.Save f = ⟨f.file.meta ++ [MetaDataBlock.vorbisComment f.cmts.comments]⟩) ∧
    (∀ f : FlacTagger,
      (FlacTagger.Save f).commentBlockCount = f.file.commentBlockCount + 1) ∧
    (∀ (path : String) (file : FlacFile) (t : FlacTagger),
      NewFlacTagger path file = Except.ok t → t.file = file) ∧
    (∀ f : FlacTagger, 1 ≤ f.file.commentBlockCount →
      2 ≤ (FlacTagger.Save f).commentBlockCount) := by
  have hcount : ∀ f : FlacTagger,
      (FlacTagger.Save f).commentBlockCount = f.file.commentBlockCount + 1 := by
    intro f
    simp [FlacTagger.Save, FlacFile.commentBlockCount, MetaDataBlockVorbisComment.Marshal,
      List.filter_append, MetaDataBlock.isVorbisComment]
  refine ⟨fun f => rfl, hcount, ?_, ?_⟩
  · intro path file t h
    simp only [NewFlacTagger, Except.ok.injEq] at h
    rw [← h]
  · intro f h
    rw [hcount f]
    omega

/-- Witness for C6 at a FLAC session whose file already contains one comment
block. -/
theorem c6_flac_save_appends_comment_witness :
    NewFlacTagger "p" ⟨[MetaDataBlock.vorbisComment [("TITLE", "x")]]⟩
      = Except.ok ⟨"p", ⟨[MetaDataBlock.vorbisComment [("TITLE", "x")]]⟩, ⟨[("TITLE", "x")]⟩⟩ ∧
    (⟨"p", ⟨[MetaDataBlock.vorbisComment [("TITLE", "x")]]⟩, ⟨[("TITLE", "x")]⟩⟩ :
        FlacTagger).file = FlacFile.mk [MetaDataBlock.vorbisComment [("TITLE", "x")]] ∧
    2 ≤ (FlacTagger.Save
      ⟨"p", ⟨[MetaDataBlock.vorbisComment [("TITLE", "x")]]⟩, ⟨[("TITLE", "x")]⟩⟩).commentBlockCount :=
  ⟨rfl,
   c6_flac_save_appends_comment.2.2.1 "p" ⟨[MetaDataBlock.vorbisComment [("TITLE", "x")]]⟩
     ⟨"p", ⟨[MetaDataBlock.vorbisComment [("TITLE", "x")]]⟩, ⟨[("TITLE", "x")]⟩⟩ rfl,
   c6_flac_save_appends_comment.2.2.2
     ⟨"p", ⟨[MetaDataBlock.vorbisComment [("TITLE", "x")]]⟩, ⟨[("TITLE", "x")]⟩⟩ (by decide)⟩

/-- Claim C7: the FLAC comment setter is a total no-op — for every string it
returns success with the session completely unchanged, so the finalized chain
is unaffected and no COMMENT field appears because of the call. -/
theorem c7_flac_comment_noop :
    ∀ (f : FlacTagger) (s : String),
      FlacTagger.SetComment f s = Except.ok f ∧
      (∀ f2, FlacTagger.SetComment f s = Except.ok f2 →
        FlacTagger.Save f2 = FlacTagger.Save f ∧
        f2.cmts.valuesOf "COMMENT" = f.cmts.valuesOf "COMMENT") := by
  intro f s
  refine ⟨rfl, ?_⟩
  intro f2 h
  simp only [FlacTagger.SetComment, Except.ok.injEq] at h
  rw [← h]
  exact ⟨rfl, rfl⟩

/-- Witness for C7: `SetComment "hello"` on a concrete FLAC session. -/
theorem c7_flac_comment_noop_witness :
    FlacTagger.SetComment ⟨"p", ⟨[]⟩, ⟨[("TITLE", "t")]⟩⟩ "hello"
      = Except.ok ⟨"p", ⟨[]⟩, ⟨[("TITLE", "t")]⟩⟩ ∧
    FlacTagger.Save (⟨"p", ⟨[]⟩, ⟨[("TITLE", "t")]⟩⟩ : FlacTagger)
      = FlacTagger.Save ⟨"p", ⟨[]⟩, ⟨[("TITLE", "t")]⟩⟩ :=
  ⟨(c7_flac_comment_noop ⟨"p", ⟨[]⟩, ⟨[("TITLE", "t")]⟩⟩ "hello").1,
   ((c7_flac_comment_noop ⟨"p", ⟨[]⟩, ⟨[("TITLE", "t")]⟩⟩ "hello").2
     ⟨"p", ⟨[]⟩, ⟨[("TITLE", "t")]⟩⟩ rfl).1⟩

/-- Claim C8: first-write-wins idempotence — on a session with no pre-existing
title, setting the title to a non-empty `x` twice stores exactly one title
value equal to `x`, and a later set with a different `y` still leaves `x`, on
both encoders. -/
theorem c8_first_write_wins :
    (∀ (m : Id3Tag) (x y : String), m.title = "" → x ≠ "" →
      (Mp3Tagger.SetTitle m x).2.title = x ∧
      Mp3Tagger.SetTitle (Mp3Tagger.SetTitle m x).2 x = (none, (Mp3Tagger.SetTitle m x).2) ∧
      Mp3Tagger.SetTitle (Mp3Tagger.SetTitle m x).2 y = (none, (Mp3Tagger.SetTitle m x).2)) ∧
    (∀ (f : FlacTagger) (x y : String), f.titleValues = [] → x ≠ "" →
      ∃ f1, FlacTagger.SetTitle f x = Except.ok f1 ∧ f1.titleValues = [x] ∧
        FlacTagger.SetTitle f1 x = Except.ok f1 ∧ FlacTagger.SetTitle f1 y = Except.ok f1) := by
  constructor
  · intro m x y h hx
    have h1 : (Mp3Tagger.SetTitle m x).2 = m.SetTitle x := by
      simp [Mp3Tagger.SetTitle, Id3Tag.Title, h]
    have h2 : (Mp3Tagger.SetTitle m x).2.title = x := by
      rw [h1]; rfl
    refine ⟨h2, ?_, ?_⟩
    · rw [h1]
      simp [Mp3Tagger.SetTitle, Id3Tag.Title, Id3Tag.SetTitle, hx]
    · rw [h1]
      simp [Mp3Tagger.SetTitle, Id3Tag.Title, Id3Tag.SetTitle, hx]
  · intro f x y h hx
    have hv : f.cmts.valuesOf FIELD_TITLE = [] := h
    refine ⟨{ f with cmts := f.cmts.Add FIELD_TITLE x }, ?_, ?_, ?_, ?_⟩
    · simp [FlacTagger.SetTitle, MetaDataBlockVorbisComment.Get, hv]
    · show (f.cmts.Add FIELD_TITLE x).valuesOf FIELD_TITLE = [x]
      rw [MetaDataBlockVorbisComment.valuesOf_add, hv, List.nil_append]
    · have hone : (f.cmts.Add FIELD_TITLE x).valuesOf FIELD_TITLE = [x] := by
        rw [MetaDataBlockVorbisComment.valuesOf_add, hv, List.nil_append]
      simp [FlacTagger.SetTitle, MetaDataBlockVorbisComment.Get, hone]
    · have hone : (f.cmts.Add FIELD_TITLE x).valuesOf FIELD_TITLE = [x] := by
        rw [MetaDataBlockVorbisComment.valuesOf_add, hv, List.nil_append]
      simp [FlacTagger.SetTitle, MetaDataBlockVorbisComment.Get, hone]

/-- Witness for C8 with x = "x", y = "y" on empty-title sessions of both
encoders. -/
theorem c8_first_write_wins_witness :
    ((Mp3Tagger.SetTitle ⟨"", "", [], [], []⟩ "x").2.title = "x" ∧
      Mp3Tagger.SetTitle (Mp3Tagger.SetTitle ⟨"", "", [], [], []⟩ "x").2 "x"
        = (none, (Mp3Tagger.SetTitle ⟨"", "", [], [], []⟩ "x").2) ∧
      Mp3Tagger.SetTitle (Mp3Tagger.SetTitle ⟨"", "", [], [], []⟩ "x").2 "y"
        = (none, (Mp3Tagger.SetTitle ⟨"", "", [], [], []⟩ "x").2)) ∧
    (∃ f1, FlacTagger.SetTitle ⟨"p", ⟨[]⟩, ⟨[]⟩⟩ "x" = Except.ok f1 ∧
      f1.titleValues = ["x"] ∧
      FlacTagger.SetTitle f1 "x" = Except.ok f1 ∧ FlacTagger.SetTitle f1 "y" = Except.ok f1) :=
  ⟨c8_first_write_wins.1 ⟨"", "", [], [], []⟩ "x" "y" rfl (by decide),
   c8_first_write_wins.2 ⟨"p", ⟨[]⟩, ⟨[]⟩⟩ "x" "y" (by decide) (by decide)⟩

/-- Claim C9: dual-cover accumulation — cover setters never check for existing
covers; every successful set-cover call appends exactly one new front-cover
picture entry, so two successive calls yield two more entries, on both
encoders. -/
theorem c9_cover_accumulation :
    (∀ (m : Id3Tag) (buf mime : String),
      Mp3Tagger.SetCover m buf mime = (none, { m with pictureFrames := m.pictureFrames ++
        [{ encoding := "ISO-8859-1", mimeType := mime, pictureType := "FrontCover",
           description := "Front cover", picture := buf }] })) ∧
    (∀ (m : Id3Tag) (bufA mimeA bufB mimeB : String),
      ((Mp3Tagger.SetCover (Mp3Tagger.SetCover m bufA mimeA).2 bufB mimeB).2).pictureFrames.length
        = m.pictureFrames.length + 2) ∧
    (∀ (decodeOk : String → String → Bool) (f : FlacTagger) (buf mime : String)
       (f2 : FlacTagger), FlacTagger.SetCover decodeOk f buf mime = Except.ok f2 →
      f2.file.meta = f.file.meta
        ++ [MetaDataBlock.picture "FrontCover" "Front cover" mime buf]) ∧
    (∀ (decodeOk : String → String → Bool) (f : FlacTagger) (bufA mimeA bufB mimeB : String)
       (f1 f2 : FlacTagger),
      FlacTagger.SetCover decodeOk f bufA mimeA = Except.ok f1 →
      FlacTagger.SetCover decodeOk f1 bufB mimeB = Except.ok f2 →
      f2.file.pictureBlockCount = f.file.pictureBlockCount + 2) := by
  refine ⟨fun m buf mime => rfl, ?_, ?_, ?_⟩
  · intro m bufA mimeA bufB mimeB
    simp [Mp3Tagger.SetCover, Id3Tag.AddAttachedPicture]
  · intro decodeOk f buf mime f2 h
    rw [FlacTagger.setCover_ok decodeOk f buf mime f2 h]
  · intro decodeOk f bufA mimeA bufB mimeB f1 f2 h1 h2
    rw [FlacTagger.setCover_ok decodeOk f1 bufB mimeB f2 h2,
      FlacTagger.setCover_ok decodeOk f bufA mimeA f1 h1]
    simp [FlacFile.pictureBlockCount, List.filter_append, MetaDataBlock.isPicture]

/-- Witness for C9: two successive FLAC set-cover calls (with an
always-succeeding decode) on an empty chain end with two picture blocks. -/
theorem c9_cover_accumulation_witness :
    (FlacTagger.SetCover (fun _ _ => true) ⟨"p", ⟨[]⟩, ⟨[]⟩⟩ "imgA" "image/jpeg"
        = Except.ok ⟨"p", ⟨[MetaDataBlock.picture "FrontCover" "Front cover" "image/jpeg" "imgA"]⟩,
            ⟨[]⟩⟩) ∧
    (⟨"p", ⟨[MetaDataBlock.picture "FrontCover" "Front cover" "image/jpeg" "imgA"]⟩, ⟨[]⟩⟩ :
        FlacTagger).file.meta
      = (⟨"p", ⟨[]⟩, ⟨[]⟩⟩ : FlacTagger).file.meta
        ++ [MetaDataBlock.picture "FrontCover" "Front cover" "image/jpeg" "imgA"] ∧
    (⟨"p", ⟨[MetaDataBlock.picture "FrontCover" "Front cover" "image/jpeg" "imgA",
        MetaDataBlock.picture "FrontCover" "Front cover" "image/png" "imgB"]⟩, ⟨[]⟩⟩ :
        FlacTagger).file.pictureBlockCount
      = (⟨"p", ⟨[]⟩, ⟨[]⟩⟩ : FlacTagger).file.pictureBlockCount + 2 :=
  ⟨rfl,
   c9_cover_accumulation.2.2.1 (fun _ _ => true) ⟨"p", ⟨[]⟩, ⟨[]⟩⟩ "imgA" "image/jpeg" _ rfl,
   c9_cover_accumulation.2.2.2 (fun _ _ => true) ⟨"p", ⟨[]⟩, ⟨[]⟩⟩ "imgA" "image/jpeg"
     "imgB" "image/png" _ _ rfl rfl⟩

/-- Claim C10 (implicit): every MP3 setter returns a nil error on every input —
no MP3 setter can ever fail. -/
theorem c10_mp3_setters_never_fail :
    ∀ (m : Id3Tag) (buf mime s url : String) (artists : List String),
      (Mp3Tagger.SetCover m buf mime).1 = none ∧
      (Mp3Tagger.SetCoverUrl m url).1 = none ∧
      (Mp3Tagger.SetTitle m s).1 = none ∧
      (Mp3Tagger.SetAlbum m s).1 = none ∧
      (Mp3Tagger.SetArtist m artists).1 = none ∧
      (Mp3Tagger.SetComment m s).1 = none := by
  intro m buf mime s url artists
  refine ⟨rfl, rfl, ?_, ?_, ?_, ?_⟩
  · unfold Mp3Tagger.SetTitle
    split <;> rfl
  · unfold Mp3Tagger.SetAlbum
    split <;> rfl
  · unfold Mp3Tagger.SetArtist
    split <;> rfl
  · unfold Mp3Tagger.SetComment
    split <;> rfl

end Ncmdump
